import Mathlib

/-!
Verification of the volteras-oracle onboarding core against its
natural-language specification.  The Go source is shallowly embedded:
each Go function that a claim mentions becomes a Lean definition with the
same name and the same control flow; `null.Int64` / `null.String` become
explicit (value, valid) pairs; the Go `%` on `int` (truncated remainder)
becomes `Int.tmod`; fallible calls become `Except` values passed in as
arguments.
-/

namespace VolterasOracle

/-- Embeds `null.Int64` from volatiletech/null/v8: the `Int64` field is
readable even when `Valid` is false (it is then `0`). -/
structure NullInt64 where
  int64 : Int
  valid : Bool
deriving DecidableEq, Repr

/-- The SQL NULL value of `null.Int64`. -/
def NullInt64.nullVal : NullInt64 := ⟨0, false⟩

/-- Embeds `null.Int64From`. -/
def NullInt64.fromInt (i : Int) : NullInt64 := ⟨i, true⟩

/-- Embeds `null.Int64.IsZero` returns true exactly when the value is NULL. -/
def NullInt64.isZero (n : NullInt64) : Bool := !n.valid

/-- Embeds `null.String`: the `String` field is readable even when
`Valid` is false (it is then `""`). -/
structure NullString where
  string : String
  valid : Bool
deriving DecidableEq, Repr

/-- The SQL NULL value of `null.String`. -/
def NullString.nullVal : NullString := ⟨"", false⟩

/-- Embeds `null.StringFrom`. -/
def NullString.fromString (s : String) : NullString := ⟨s, true⟩

/-- Embeds `null.String.IsZero` returns true exactly when the value is NULL. -/
def NullString.isZero (n : NullString) : Bool := !n.valid

/-- The VIN record (table `vins`, sqlboiler model `dbmodels.Vin`). -/
structure Vin where
  vin : String
  onboardingStatus : Int
  vehicleTokenID : NullInt64 := .nullVal
  syntheticTokenID : NullInt64 := .nullVal
  walletIndex : NullInt64 := .nullVal
  deviceDefinitionID : NullString := .nullVal
  externalID : NullString := .nullVal
  connectionStatus : NullString := .nullVal
  disconnectionStatus : NullString := .nullVal
  operationErrorType : NullString := .nullVal
  operationErrorCode : NullString := .nullVal
  operationErrorDescription : NullString := .nullVal
deriving DecidableEq, Repr

/-! ## Status codes and predicates (internal/onboarding/status.go) -/

def OnboardingStatusSubmitUnknown : Int := 0
def OnboardingStatusSubmitPending : Int := 1
def OnboardingStatusSubmitFailure : Int := 2
def OnboardingStatusSubmitSuccess : Int := 3
def OnboardingStatusDecodingUnknown : Int := 10
def OnboardingStatusDecodingPending : Int := 11
def OnboardingStatusDecodingFailure : Int := 12
def OnboardingStatusDecodingSuccess : Int := 13
def OnboardingStatusVendorValidationUnknown : Int := 20
def OnboardingStatusVendorValidationPending : Int := 21
def OnboardingStatusVendorValidationFailure : Int := 22
def OnboardingStatusVendorValidationSuccess : Int := 23
def OnboardingStatusMintSubmitUnknown : Int := 30
def OnboardingStatusMintSubmitPending : Int := 31
def OnboardingStatusMintSubmitFailure : Int := 32
def OnboardingStatusMintSubmitSuccess : Int := 33
def OnboardingStatusConnectUnknown : Int := 40
def OnboardingStatusConnectPending : Int := 41
def OnboardingStatusConnectFailure : Int := 42
def OnboardingStatusConnectSuccess : Int := 43
def OnboardingStatusMintUnknown : Int := 50
def OnboardingStatusMintPending : Int := 51
def OnboardingStatusMintFailure : Int := 52
def OnboardingStatusMintSuccess : Int := 53
def OnboardingStatusDisconnectSubmitUnknown : Int := 60
def OnboardingStatusDisconnectSubmitPending : Int := 61
def OnboardingStatusDisconnectSubmitFailure : Int := 62
def OnboardingStatusDisconnectSubmitSuccess : Int := 63
def OnboardingStatusDisconnectUnknown : Int := 70
def OnboardingStatusDisconnectPending : Int := 71
def OnboardingStatusDisconnectFailure : Int := 72
def OnboardingStatusDisconnectSuccess : Int := 73
def OnboardingStatusBurnSDUnknown : Int := 80
def OnboardingStatusBurnSDPending : Int := 81
def OnboardingStatusBurnSDFailure : Int := 82
def OnboardingStatusBurnSDSuccess : Int := 83
def OnboardingStatusDeleteSubmitUnknown : Int := 90
def OnboardingStatusDeleteSubmitPending : Int := 91
def OnboardingStatusDeleteSubmitFailure : Int := 92
def OnboardingStatusDeleteSubmitSuccess : Int := 93
def OnboardingStatusBurnVehicleUnknown : Int := 100
def OnboardingStatusBurnVehiclePending : Int := 101
def OnboardingStatusBurnVehicleFailure : Int := 102
def OnboardingStatusBurnVehicleSuccess : Int := 103

/-- Embeds `IsVerified` from status.go. -/
def IsVerified (status : Int) : Bool :=
  status ≥ OnboardingStatusVendorValidationSuccess

/-- Embeds `IsMinted` from status.go. -/
def IsMinted (status : Int) : Bool :=
  status == OnboardingStatusMintSuccess

/-- Embeds `IsDisconnected` from status.go. -/
def IsDisconnected (status : Int) : Bool :=
  status == OnboardingStatusBurnSDSuccess

/-- Embeds `IsFailure` from status.go; Go `%` on int is truncated remainder. -/
def IsFailure (status : Int) : Bool :=
  status.tmod 10 == 2

/-- Embeds `IsPending` from status.go. -/
def IsPending (status : Int) : Bool :=
  status > 0 && status < OnboardingStatusMintSuccess

/-- Embeds `IsMintPending` from status.go. -/
def IsMintPending (status : Int) : Bool :=
  status > OnboardingStatusMintSubmitUnknown && status < OnboardingStatusMintSuccess

/-- Embeds `IsDisconnectPending` from status.go. -/
def IsDisconnectPending (status : Int) : Bool :=
  (status > OnboardingStatusDisconnectSubmitUnknown &&
    status < OnboardingStatusBurnSDSuccess) && !IsFailure status

/-- Embeds `IsDisconnectFailed` from status.go. -/
def IsDisconnectFailed (status : Int) : Bool :=
  status == OnboardingStatusDisconnectSubmitFailure ||
  status == OnboardingStatusBurnSDFailure ||
  status == OnboardingStatusDisconnectFailure

/-- Embeds `IsBurnPending` from status.go. -/
def IsBurnPending (status : Int) : Bool :=
  status > OnboardingStatusDeleteSubmitUnknown &&
  status < OnboardingStatusBurnVehicleSuccess

/-! ## Gate predicates (controller, part_002)

The Go gates take a `*dbmodels.Vin` that may be nil; the embedding uses
`Option Vin` with `none` for nil. -/

/-- Embeds `canSubmitMintingJob` (part_002 lines 938-950). -/
def canSubmitMintingJob : Option Vin → Bool
  | none => false
  | some record =>
    let minted := IsMinted record.onboardingStatus
    let burned := IsDisconnected record.onboardingStatus
    let failed := IsFailure record.onboardingStatus
    let failedConnection := record.connectionStatus.string == "failed"
    let pending := IsMintPending record.onboardingStatus ||
      IsDisconnectPending record.onboardingStatus
    (minted && failedConnection) || ((!minted || burned) && (failed || !pending))

/-- Embeds `canSubmitVerificationJob` (part_002 lines 389-399). -/
def canSubmitVerificationJob : Option Vin → Bool
  | none => false
  | some record =>
    let verified := IsVerified record.onboardingStatus
    let failed := IsFailure record.onboardingStatus
    let pending := IsPending record.onboardingStatus
    !verified && (failed || !pending)

/-- The fresh record `SubmitVerificationForVins` builds for a VIN that is
absent from the store (part_002 lines 471-477) before consulting the gate. -/
def freshSubmitRecord (vin : String) : Vin :=
  { vin := vin, onboardingStatus := OnboardingStatusSubmitUnknown }

/-- The effective verify-admission in `SubmitVerificationForVins`: an absent
record is replaced by `freshSubmitRecord` before `canSubmitVerificationJob`
is consulted (part_002 lines 470-480). -/
def submitVerificationGate (vin : String) (record : Option Vin) : Bool :=
  canSubmitVerificationJob (some (record.getD (freshSubmitRecord vin)))

/-- Claim C1: the mint-gate predicate `canSubmitMintingJob` admits a mint job
exactly when (the record is minted, status 53, and its connection_status
equals "failed") or ((the record is not minted, or is disconnected at status
83) and (its status is a failure, status % 10 == 2, or it is neither
mint-pending (30 < s < 53) nor disconnect-pending (60 < s < 83 and not a
failure))); a nil record is never admitted. -/
theorem claim_C1_mint_gate :
    canSubmitMintingJob none = false ∧
    ∀ record : Vin,
      (canSubmitMintingJob (some record) = true ↔
        ((record.onboardingStatus = 53 ∧ record.connectionStatus.string = "failed") ∨
         ((record.onboardingStatus ≠ 53 ∨ record.onboardingStatus = 83) ∧
          (record.onboardingStatus.tmod 10 = 2 ∨
           (¬(30 < record.onboardingStatus ∧ record.onboardingStatus < 53) ∧
            ¬(60 < record.onboardingStatus ∧ record.onboardingStatus < 83 ∧
              ¬record.onboardingStatus.tmod 10 = 2)))))) := by
  refine ⟨rfl, ?_⟩
  intro record
  simp only [canSubmitMintingJob, IsMinted, IsDisconnected, IsFailure,
    IsMintPending, IsDisconnectPending, OnboardingStatusMintSuccess,
    OnboardingStatusBurnSDSuccess, OnboardingStatusMintSubmitUnknown,
    OnboardingStatusDisconnectSubmitUnknown,
    Bool.or_eq_true, Bool.and_eq_true, Bool.not_eq_true', beq_iff_eq,
    decide_eq_true_eq, decide_eq_false_iff_not, Bool.not_and,
    Bool.not_or, Bool.and_eq_false_iff, Bool.or_eq_false_iff,
    Bool.not_eq_true]
  constructor
  · intro h
    rcases h with h | ⟨h1, h2⟩
    · exact Or.inl ⟨h.1, h.2⟩
    · refine Or.inr ⟨?_, ?_⟩
      · rcases h1 with h1 | h1
        · exact Or.inl (by simpa using h1)
        · exact Or.inr h1
      · rcases h2 with h2 | h2
        · exact Or.inl h2
        · rcases h2 with ⟨hmp, hdp⟩
          refine Or.inr ⟨?_, ?_⟩
          · intro ⟨ha, hb⟩
            rcases hmp with h | h
            · omega
            · omega
          · intro ⟨ha, hb, hc⟩
            rcases hdp with h | h
            · rcases h with h | h
              · omega
              · omega
            · simp at h
              exact hc h
  · intro h
    rcases h with ⟨h1, h2⟩ | ⟨h1, h2⟩
    · exact Or.inl ⟨h1, h2⟩
    · refine Or.inr ⟨?_, ?_⟩
      · rcases h1 with h1 | h1
        · exact Or.inl (by simpa using h1)
        · exact Or.inr h1
      · rcases h2 with h2 | ⟨hmp, hdp⟩
        · exact Or.inl h2
        · refine Or.inr ⟨?_, ?_⟩
          · by_cases ha : 30 < record.onboardingStatus
            · exact Or.inr (by omega)
            · exact Or.inl (by omega)
          · by_cases hf : record.onboardingStatus.tmod 10 = 2
            · exact Or.inr (by simpa using hf)
            · by_cases ha : 60 < record.onboardingStatus
              · exact Or.inl (Or.inr (by omega))
              · exact Or.inl (Or.inl (by omega))

/-- Claim C7 counterexample: the claim says the verify-gate predicate admits
a verify job when the record is absent, but `canSubmitVerificationJob`
returns false on a nil record. -/
theorem claim_C7_nil_counterexample :
    canSubmitVerificationJob none = false := rfl

/-- Claim C7 (amended): `canSubmitVerificationJob` rejects a nil record; for
an existing record it admits exactly when the record is not verified
(status < 23) and either its status is a failure (status % 10 == 2) or it is
not pending (not 0 < status < 53).  The submit handler substitutes a fresh
status-0 record for an absent VIN, and that substitute is admitted, so a
verify job is still enqueued for VINs without a record. -/
theorem claim_C7_verify_gate :
    canSubmitVerificationJob none = false ∧
    (∀ record : Vin,
      (canSubmitVerificationJob (some record) = true ↔
        (record.onboardingStatus < 23 ∧
         (record.onboardingStatus.tmod 10 = 2 ∨
          ¬(0 < record.onboardingStatus ∧ record.onboardingStatus < 53))))) ∧
    (∀ vin : String, submitVerificationGate vin none = true) := by
  refine ⟨rfl, ?_, fun _ => rfl⟩
  intro record
  simp only [canSubmitVerificationJob, IsVerified, IsFailure, IsPending,
    OnboardingStatusVendorValidationSuccess, OnboardingStatusMintSuccess,
    Bool.and_eq_true, Bool.or_eq_true, Bool.not_eq_true', beq_iff_eq,
    decide_eq_true_eq, decide_eq_false_iff_not, Bool.and_eq_false_iff,
    ge_iff_le]
  constructor
  · intro ⟨h1, h2⟩
    refine ⟨by omega, ?_⟩
    rcases h2 with h2 | h2
    · exact Or.inl h2
    · rcases h2 with h2 | h2
      · exact Or.inr (by omega)
      · exact Or.inr (by omega)
  · intro ⟨h1, h2⟩
    refine ⟨by omega, ?_⟩
    rcases h2 with h2 | h2
    · exact Or.inl h2
    · by_cases ha : 0 < record.onboardingStatus
      · exact Or.inr (Or.inr (by omega))
      · exact Or.inr (Or.inl (by omega))

/-! ## Verify worker, vendor-validation stage (internal/onboarding/verify.go)

`ValidateWithExternalVendorAndUpdate` (lines 149-182).  The vendor call
`w.vendor.Validate([]string{args.VIN})` is external; its outcome is passed
in as an `Except` value.  The deferred `w.update` persists whatever is in
the record on every exit path, so the returned record is the persisted one.
Indexing `validation[0]` on an empty slice would panic in Go; that case is
kept apart as `panicked`. -/

/-- One element of the vendor `Validate` response. -/
structure VinValidation where
  status : String
deriving DecidableEq, Repr

/-- Outcome of the vendor-validation stage: the persisted record plus
whether the stage returned an error; `panicked` marks the out-of-range
index on an empty vendor response. -/
inductive VendorStageOutcome where
  | success (record : Vin)
  | failure (record : Vin)
  | panicked
deriving DecidableEq, Repr

/-- Embeds `ValidateWithExternalVendorAndUpdate` from verify.go.
`enableVendorCapabilityCheck` is `w.settings.EnableVendorCapabilityCheck`;
`validateResult` is the outcome of `w.vendor.Validate([]string{args.VIN})`.
Note the source compares the first returned status against the literal
`"notCapable "` — with a trailing space. -/
def ValidateWithExternalVendorAndUpdate
    (enableVendorCapabilityCheck : Bool)
    (validateResult : Except String (List VinValidation))
    (record : Vin) : VendorStageOutcome :=
  let record := { record with
    onboardingStatus := OnboardingStatusVendorValidationUnknown }
  if enableVendorCapabilityCheck then
    match validateResult with
    | .error _ =>
      .failure { record with
        onboardingStatus := OnboardingStatusVendorValidationFailure }
    | .ok [] => .panicked
    | .ok (v0 :: _) =>
      if v0.status == "notCapable " || v0.status == "noDataFound" then
        .failure { record with
          onboardingStatus := OnboardingStatusVendorValidationFailure }
      else
        .success { record with
          onboardingStatus := OnboardingStatusVendorValidationSuccess }
  else
    .success { record with
      onboardingStatus := OnboardingStatusVendorValidationSuccess }

/-- A record as it enters the vendor-validation stage. -/
def c2Record : Vin :=
  { vin := "1FTFW1ET5DFA12345",
    onboardingStatus := OnboardingStatusDecodingSuccess,
    deviceDefinitionID := NullString.fromString "ford_f-150_2013" }

/-- Claim C2: with the capability check enabled and the vendor returning a
first status of exactly "notCapable", the stage was claimed to set
VendorValidationFailure(22) and error; the code instead compares against
"notCapable " (trailing space), sets VendorValidationSuccess(23) and
succeeds. -/
theorem claim_C2_notCapable_divergence :
    ValidateWithExternalVendorAndUpdate true (.ok [⟨"notCapable"⟩]) c2Record =
      .success { c2Record with onboardingStatus := 23 } ∧
    ValidateWithExternalVendorAndUpdate true (.ok [⟨"notCapable "⟩]) c2Record =
      .failure { c2Record with onboardingStatus := 22 } ∧
    ValidateWithExternalVendorAndUpdate true (.ok [⟨"noDataFound"⟩]) c2Record =
      .failure { c2Record with onboardingStatus := 22 } := by
  refine ⟨?_, ?_, ?_⟩ <;> decide

/-! ## Disconnect worker, burn-SD stage (part_005)

`BurnSDAndUpdate` submits the caller-signed burn-SD user-operation via
`w.tr.SendSignedUserOperation` and reads its result via
`w.tr.GetBurnSDByOwnerResult`; both are external calls passed in as
`Except` values.  The deferred `w.update` persists onboarding_status,
synthetic_token_id and wallet_index on every exit path (including a panic),
so the returned record is what the store ends up holding. -/

/-- Result of a burn stage: the persisted record, and whether the function
returned an error to the worker. -/
structure BurnStageResult where
  record : Vin
  returnedError : Bool
deriving DecidableEq, Repr

/-- Embeds `BurnSDAndUpdate` from part_005 (lines 155-188).  `sendResult` is the
outcome of `SendSignedUserOperation`; `getResult` of
`GetBurnSDByOwnerResult`.  After a `getResult` error the source sets
BurnSDFailure but does not return, so control falls through to the
success epilogue that clears `wallet_index` and `synthetic_token_id` and
sets BurnSDSuccess. -/
def BurnSDAndUpdate (sendResult : Except String Unit)
    (getResult : Except String Unit) (record : Vin) : BurnStageResult :=
  match sendResult with
  | .error _ =>
    ⟨{ record with onboardingStatus := OnboardingStatusBurnSDFailure }, true⟩
  | .ok _ =>
    let record :=
      match getResult with
      | .error _ =>
        { record with onboardingStatus := OnboardingStatusBurnSDFailure }
      | .ok _ => record
    ⟨{ record with
        walletIndex := NullInt64.nullVal,
        syntheticTokenID := NullInt64.nullVal,
        onboardingStatus := OnboardingStatusBurnSDSuccess }, false⟩

/-- A record as it enters the burn-SD stage: vendor disconnect done,
synthetic device still present. -/
def c3Record : Vin :=
  { vin := "1FTFW1ET5DFA12345",
    onboardingStatus := OnboardingStatusDisconnectSuccess,
    vehicleTokenID := NullInt64.fromInt 101,
    syntheticTokenID := NullInt64.fromInt 202,
    walletIndex := NullInt64.fromInt 7,
    disconnectionStatus := NullString.fromString "succeeded" }

/-- Claim C3: the claim says every failure of the burn-SD submission or of
reading its result leaves the record at BurnSDFailure(82) with
synthetic_token_id and wallet_index unchanged.  The submission-failure path
does that, but when reading the result fails the missing return makes the
code clear both fields and set BurnSDSuccess(83) while reporting success. -/
theorem claim_C3_burnSD_divergence :
    BurnSDAndUpdate (.error "bundler unavailable") (.ok ()) c3Record =
      ⟨{ c3Record with onboardingStatus := 82 }, true⟩ ∧
    BurnSDAndUpdate (.ok ()) (.error "no burn log found") c3Record =
      ⟨{ c3Record with
          walletIndex := NullInt64.nullVal,
          syntheticTokenID := NullInt64.nullVal,
          onboardingStatus := 83 }, false⟩ := by
  refine ⟨?_, ?_⟩ <;> decide

/-! ## Delete worker (internal/onboarding/delete.go) -/

/-- Outcome of `DeleteWorker.Work`: either an error before any record
mutation, an early success without mutation, or the result of the
burn-vehicle stage. -/
inductive DeleteWorkOutcome where
  | erroredNoChange (msg : String)
  | doneNoChange
  | burned (result : BurnStageResult)
deriving DecidableEq, Repr

/-- Embeds `BurnVehicleAndUpdate` from delete.go (lines 113-145): same shape as
`BurnSDAndUpdate`, persisting onboarding_status and vehicle_token_id via the
deferred update.  After a `GetBurnVehicleByOwnerResult` error the source
sets BurnVehicleFailure but does not return, falling through to the
epilogue that clears `vehicle_token_id` and sets BurnVehicleSuccess. -/
def BurnVehicleAndUpdate (sendResult : Except String Unit)
    (getResult : Except String Unit) (record : Vin) : BurnStageResult :=
  match sendResult with
  | .error _ =>
    ⟨{ record with onboardingStatus := OnboardingStatusBurnVehicleFailure },
      true⟩
  | .ok _ =>
    let record :=
      match getResult with
      | .error _ =>
        { record with onboardingStatus := OnboardingStatusBurnVehicleFailure }
      | .ok _ => record
    ⟨{ record with
        vehicleTokenID := NullInt64.nullVal,
        onboardingStatus := OnboardingStatusBurnVehicleSuccess }, false⟩

/-- Embeds `DeleteWorker.Work` from delete.go (lines 67-101), after the record has
been fetched.  `sendResult`/`getResult` describe the burn-vehicle
user-operation calls made if the burn stage is reached. -/
def deleteWorkerWork (record : Vin) (sendResult : Except String Unit)
    (getResult : Except String Unit) : DeleteWorkOutcome :=
  if record.onboardingStatus < OnboardingStatusBurnSDSuccess then
    .erroredNoChange "insufficient disconnect status"
  else if record.onboardingStatus = OnboardingStatusBurnVehicleSuccess then
    .doneNoChange
  else if record.syntheticTokenID.valid then
    .erroredNoChange "sd not empty"
  else if record.vehicleTokenID.valid then
    .burned (BurnVehicleAndUpdate sendResult getResult record)
  else
    .doneNoChange

/-- A record as it enters the delete worker: SD burned, vehicle NFT still
present. -/
def c4Record : Vin :=
  { vin := "1FTFW1ET5DFA12345",
    onboardingStatus := OnboardingStatusBurnSDSuccess,
    vehicleTokenID := NullInt64.fromInt 101 }

/-- Claim C4: the refuse-on-synthetic and submission-failure paths behave as
claimed, but when reading the burn-vehicle result fails the missing return
makes the code clear vehicle_token_id and set BurnVehicleSuccess(103) while
reporting success, instead of the claimed BurnVehicleFailure(102) with
vehicle_token_id unchanged. -/
theorem claim_C4_delete_divergence :
    deleteWorkerWork { c4Record with
        syntheticTokenID := NullInt64.fromInt 202 } (.ok ()) (.ok ()) =
      .erroredNoChange "sd not empty" ∧
    deleteWorkerWork c4Record (.error "bundler unavailable") (.ok ()) =
      .burned ⟨{ c4Record with onboardingStatus := 102 }, true⟩ ∧
    deleteWorkerWork c4Record (.ok ()) (.error "no burn log found") =
      .burned ⟨{ c4Record with
          vehicleTokenID := NullInt64.nullVal,
          onboardingStatus := 103 }, false⟩ := by
  refine ⟨?_, ?_, ?_⟩ <;> decide

/-! ## VIN-list validation in the controllers (part_002)

Every VIN-list handler runs the same prologue: trim each VIN, validate it
(regex `^[A-HJ-NPR-Z0-9]{17}$`, or any 17-char string in vendor test mode),
reject with 400 when some VIN was dropped, then reject with 400 when
`slices.Compact` shortens the list (lines 330-335, 443-448 and the other
handlers), and only then hit the store. -/

/-- An ASCII whitespace character (the fragment of the Go `unicode.IsSpace`
that 17-char VIN inputs can contain). -/
def isSpaceChar (c : Char) : Bool :=
  c == ' ' || c == '\t' || c == '\n' || c == '\r'

/-- Embeds `strings.TrimSpace` on the ASCII fragment: drop leading and trailing
whitespace. -/
def goTrimSpace (s : String) : String :=
  String.mk (((s.data.dropWhile isSpaceChar).reverse.dropWhile
    isSpaceChar).reverse)

/-- One character of the VIN alphabet `[A-HJ-NPR-Z0-9]`. -/
def vinAlphabetChar (c : Char) : Bool :=
  ('A' ≤ c && c ≤ 'H') || ('J' ≤ c && c ≤ 'N') || c == 'P' ||
  ('R' ≤ c && c ≤ 'Z') || ('0' ≤ c && c ≤ '9')

/-- Embeds `isValidVin` from part_002: in vendor test mode any 17-char string,
otherwise the VIN regex. -/
def isValidVin (enableVendorTestMode : Bool) (vin : String) : Bool :=
  if enableVendorTestMode then
    vin.length == 17
  else
    vin.length == 17 && vin.toList.all vinAlphabetChar

/-- the Go `slices.Compact`: replaces consecutive runs of equal elements with
a single copy (it does not touch non-adjacent duplicates). -/
def slicesCompact : List String → List String
  | [] => []
  | [a] => [a]
  | a :: b :: rest =>
    if a == b then slicesCompact (b :: rest)
    else a :: slicesCompact (b :: rest)

/-- What the common VIN-list prologue does before any store access. -/
inductive VinsRequestOutcome where
  | badRequestInvalid
  | badRequestDuplicated
  | storeLookup (validVins : List String)
deriving DecidableEq, Repr

/-- The common VIN-list prologue of the handlers in part_002: trim,
validate, length check, `slices.Compact` duplicate check; `storeLookup`
means the handler goes on to `GetVehiclesByVins` (and possibly to enqueue
or upsert). -/
def vinsPreCheck (enableVendorTestMode : Bool)
    (vins : List String) : VinsRequestOutcome :=
  let validVins := (vins.map goTrimSpace).filter (isValidVin enableVendorTestMode)
  if validVins.length != vins.length then .badRequestInvalid
  else if validVins.length != (slicesCompact validVins).length then
    .badRequestDuplicated
  else .storeLookup validVins

/-- A request list holding the same VIN twice at non-adjacent positions. -/
def c6Vins : List String :=
  ["1FTFW1ET5DFA12345", "5YJ3E1EA7KF317433", "1FTFW1ET5DFA12345"]

/-- Claim C6: the claim says any repeated VIN (adjacent or not) yields 400
with no store access.  The duplicate check uses `slices.Compact` on the
unsorted list, which only collapses adjacent runs, so a non-adjacent
repeat passes the check and the handler proceeds to the store lookup;
only adjacent repeats get the 400. -/
theorem claim_C6_duplicates_divergence :
    vinsPreCheck false c6Vins = .storeLookup c6Vins ∧
    ¬c6Vins.Nodup ∧
    vinsPreCheck false
      ["1FTFW1ET5DFA12345", "1FTFW1ET5DFA12345", "5YJ3E1EA7KF317433"] =
      .badRequestDuplicated := by
  refine ⟨by decide, by decide, by decide⟩

/-! ## SD wallet derivation (internal/service/sd_wallets.go)

Bytes are `Nat`s below 256; byte strings are `List Nat`.  The btcd
hierarchical derivation (`key.Derive` followed by `ECPrivKey` and
`crypto.ToECDSA`) and the go-ethereum `crypto.Sign` / `crypto.PubkeyToAddress`
are external libraries, so they enter the embedding as function arguments;
the documented contract of `crypto.Sign` (65-byte `[R ‖ S ‖ V]` with
recovery id `V ∈ {0, 1}`) becomes hypotheses of the theorem for the
claim. -/

/-- Embeds `hdkeychain.HardenedKeyStart` = 2^31. -/
def HardenedKeyStart : Nat := 2147483648

/-- The wallet service: `deriveChild` models the
`Derive`/`ECPrivKey`/`ToECDSA` pipeline on the master key, yielding the
serialized child private key; `pubkeyToAddress` models
`crypto.PubkeyToAddress` applied to its public key. -/
structure SDWalletsService where
  deriveChild : Nat → Except String (List Nat)
  pubkeyToAddress : List Nat → List Nat

/-- Embeds `getPrivateKey` from sd_wallets.go (lines 84-106): indices at or above
2^31 are refused before any derivation. -/
def getPrivateKey (svc : SDWalletsService) (index : Nat) :
    Except String (List Nat) :=
  if index ≥ HardenedKeyStart then
    .error "child_number >= 2^31"
  else
    svc.deriveChild (HardenedKeyStart + index)

/-- Embeds `GetAddress` from sd_wallets.go (lines 50-57). -/
def GetAddress (svc : SDWalletsService) (index : Nat) :
    Except String (List Nat) :=
  match getPrivateKey svc index with
  | .error e => .error e
  | .ok pk => .ok (svc.pubkeyToAddress pk)

/-- Embeds `SignHash` from sd_wallets.go (lines 59-73): derive the child key, call
`crypto.Sign`, then `sig[64] += 27` (a byte add, hence mod 256). -/
def SignHash (svc : SDWalletsService)
    (cryptoSign : List Nat → List Nat → Except String (List Nat))
    (hash : List Nat) (index : Nat) : Except String (List Nat) :=
  match getPrivateKey svc index with
  | .error e => .error e
  | .ok pk =>
    match cryptoSign hash pk with
    | .error e => .error e
    | .ok sig => .ok (sig.set 64 ((sig.getD 64 0 + 27) % 256))

/-- Claim C8: for every index i < 2^31 and 32-byte hash, `SignHash` returns
a 65-byte signature whose final byte is the secp256k1 recovery id plus 27,
hence in {27, 28}, with the first 64 bytes (r ‖ s) unchanged; for every
index i ≥ 2^31, `SignHash` and `GetAddress` return an error.  The
hypotheses on `cryptoSign` are the go-ethereum documented `crypto.Sign`
contract. -/
theorem claim_C8_sign_hash (svc : SDWalletsService)
    (cryptoSign : List Nat → List Nat → Except String (List Nat))
    (hash : List Nat) (i : Nat) :
    (hash.length = 32 → i < 2 ^ 31 →
      ∀ pk sig v, svc.deriveChild (2 ^ 31 + i) = .ok pk →
        cryptoSign hash pk = .ok sig → sig.length = 65 →
        sig.getLast? = some v → v < 2 →
        SignHash svc cryptoSign hash i = .ok (sig.set 64 (v + 27)) ∧
        (sig.set 64 (v + 27)).length = 65 ∧
        (sig.set 64 (v + 27)).getLast? = some (v + 27) ∧
        (v + 27 = 27 ∨ v + 27 = 28) ∧
        (∀ j, j < 64 → (sig.set 64 (v + 27))[j]? = sig[j]?)) ∧
    (2 ^ 31 ≤ i →
      (∃ e, SignHash svc cryptoSign hash i = .error e) ∧
      (∃ e, GetAddress svc i = .error e)) := by
  constructor
  · intro _ hi pk sig v hderive hsign hlen hlast hv
    have hget : sig[64]? = some v := by
      have h64 : sig.length - 1 = 64 := by omega
      rw [List.getLast?_eq_getElem?, h64] at hlast
      exact hlast
    have hgetD : sig.getD 64 0 = v := by
      simp [List.getD, hget]
    have hmod : (v + 27) % 256 = v + 27 := by omega
    have hrun : SignHash svc cryptoSign hash i = .ok (sig.set 64 (v + 27)) := by
      unfold SignHash getPrivateKey HardenedKeyStart
      have hlt : ¬(2147483648 ≤ i) := by omega
      have h31 : (2147483648 : Nat) + i = 2 ^ 31 + i := by norm_num
      simp only [ge_iff_le, hlt, if_false, h31, hderive, hsign, hgetD, hmod]
    refine ⟨hrun, ?_, ?_, by omega, ?_⟩
    · simp [hlen]
    · rw [List.getLast?_eq_getElem?]
      simp only [List.length_set, hlen]
      have : (65 : Nat) - 1 = 64 := by omega
      rw [this]
      have h64lt : 64 < sig.length := by omega
      simp [List.getElem?_set, h64lt]
    · intro j hj
      have : (64 : Nat) ≠ j := by omega
      simp [List.getElem?_set, this]
  · intro hi
    have hge : HardenedKeyStart ≤ i := by
      unfold HardenedKeyStart
      omega
    refine ⟨⟨"child_number >= 2^31", ?_⟩, ⟨"child_number >= 2^31", ?_⟩⟩
    · unfold SignHash getPrivateKey
      simp [hge]
    · unfold GetAddress getPrivateKey
      simp [hge]

/-- A concrete wallet service for the C8 witness. -/
def c8Service : SDWalletsService :=
  ⟨fun _ => .ok [1, 2, 3], fun _ => List.replicate 20 0⟩

/-- A concrete `crypto.Sign` stand-in for the C8 witness: 64 zero bytes
followed by recovery id 1. -/
def c8Sign : List Nat → List Nat → Except String (List Nat) :=
  fun _ _ => .ok (List.replicate 64 0 ++ [1])

/-- Witness for claim C8 at index 5 (and index 2^31 for the error half). -/
theorem claim_C8_sign_hash_witness :
    SignHash c8Service c8Sign (List.replicate 32 0) 5 =
      .ok ((List.replicate 64 0 ++ [1]).set 64 28) ∧
    (∃ e, SignHash c8Service c8Sign (List.replicate 32 0) (2 ^ 31) = .error e) ∧
    (∃ e, GetAddress c8Service (2 ^ 31) = .error e) := by
  have h := claim_C8_sign_hash c8Service c8Sign (List.replicate 32 0) 5
  have h2 := claim_C8_sign_hash c8Service c8Sign (List.replicate 32 0) (2 ^ 31)
  have hmain := h.1 (by simp) (by norm_num)
    [1, 2, 3] (List.replicate 64 0 ++ [1]) 1 rfl rfl (by simp) (by decide) (by decide)
  have herr := h2.2 (le_refl _)
  exact ⟨by simpa using hmain.1, herr.1, herr.2⟩

/-! ## Telemetry forwarder (part_006, `HandleDeviceByVIN`)

The embedding starts after the CloudEvent envelope has been parsed and its
`data` unmarshalled (a malformed envelope errors out earlier).  `vinField`
is `data["vin"]` (`none` when absent or not a string); `signalsValid` is
the outcome of `validateSignals`; `lookup` is the outcome of
`GetVehicleByVin` on a cache miss (the memoization cache only ever holds
records that were found, so a VIN without a record always reaches the store
lookup). -/

/-- What `HandleDeviceByVIN` does with a parsed event. -/
inductive TelemetryOutcome where
  | errored (msg : String)
  | droppedNotOnboarded
  | forwarded (vehicle : Vin)
deriving DecidableEq, Repr

/-- Embeds `HandleDeviceByVIN` from part_006 (lines 74-146): extract the VIN,
validate the signals, look the record up, silently drop when
`vehicle.VehicleTokenID.Int64 == 0`, otherwise stamp producer/subject and
forward to the ingestion endpoint (`forwarded`). -/
def HandleDeviceByVIN (vinField : Option String)
    (signalsValid : Except String Unit)
    (lookup : Except String Vin) : TelemetryOutcome :=
  match vinField with
  | none => .errored "VIN is missing in the message data"
  | some _ =>
    match signalsValid with
    | .error e => .errored e
    | .ok _ =>
      match lookup with
      | .error e => .errored e
      | .ok vehicle =>
        if vehicle.vehicleTokenID.int64 == 0 then
          .droppedNotOnboarded
        else
          .forwarded vehicle

/-- Claim C9: for a well-formed event whose VIN has no record the handler
returns the lookup error (so the message is redelivered); for a record
whose vehicle_token_id is 0 (stored 0 or NULL, whose Int64 also reads 0)
it returns success without forwarding. -/
theorem claim_C9_telemetry :
    (∀ (vinStr e : String),
      HandleDeviceByVIN (some vinStr) (.ok ()) (.error e) = .errored e) ∧
    (∀ (vinStr : String) (record : Vin) (b : Bool),
      HandleDeviceByVIN (some vinStr) (.ok ())
        (.ok { record with vehicleTokenID := ⟨0, b⟩ }) =
        .droppedNotOnboarded) := by
  refine ⟨fun _ _ => rfl, fun _ _ _ => rfl⟩

/-! ## Vendor-operations store updates (internal/service/vehicle.go)

`UpdateEnrollmentStatus` (lines 265-316) and `UpdateUnenrollmentStatus`
(lines 319-370) fetch the VIN row, mutate it in memory, and write it back
with `boil.Whitelist` restricted to connection_status, disconnection_status,
external_id and the three operation_error columns; the stored row keeps
every other column.  `applyStatusWhitelist` embeds that whitelist. -/

/-- The vendor error payload (`models.OperationError`). -/
structure OperationError where
  type : String
  code : String
  description : String
deriving DecidableEq, Repr

/-- The `boil.Whitelist` used by both updates: the stored row takes exactly
these six columns from the mutated in-memory record. -/
def applyStatusWhitelist (stored mutated : Vin) : Vin :=
  { stored with
    connectionStatus := mutated.connectionStatus,
    disconnectionStatus := mutated.disconnectionStatus,
    externalID := mutated.externalID,
    operationErrorType := mutated.operationErrorType,
    operationErrorCode := mutated.operationErrorCode,
    operationErrorDescription := mutated.operationErrorDescription }

/-- The error-triple assignment shared by both updates: set the three
columns from the vendor error, or clear all three when it is absent. -/
def setOperationError (record : Vin) (error : Option OperationError) : Vin :=
  match error with
  | some e =>
    { record with
      operationErrorType := NullString.fromString e.type,
      operationErrorCode := NullString.fromString e.code,
      operationErrorDescription := NullString.fromString e.description }
  | none =>
    { record with
      operationErrorType := NullString.nullVal,
      operationErrorCode := NullString.nullVal,
      operationErrorDescription := NullString.nullVal }

/-- Embeds `UpdateEnrollmentStatus` from vehicle.go, acting on the fetched row. -/
def UpdateEnrollmentStatus (stored : Vin) (status externalID : String)
    (error : Option OperationError) : Vin :=
  let record := { stored with
    connectionStatus := NullString.fromString status,
    externalID := NullString.fromString externalID }
  let record :=
    if status == "succeeded" then
      { record with disconnectionStatus := NullString.nullVal }
    else record
  applyStatusWhitelist stored (setOperationError record error)

/-- Embeds `UpdateUnenrollmentStatus` from vehicle.go, acting on the fetched row. -/
def UpdateUnenrollmentStatus (stored : Vin) (status : String)
    (error : Option OperationError) : Vin :=
  let record := { stored with
    disconnectionStatus := NullString.fromString status }
  let record :=
    if status == "succeeded" then
      { record with
        connectionStatus := NullString.nullVal,
        externalID := NullString.nullVal }
    else record
  applyStatusWhitelist stored (setOperationError record error)

/-- Claim C10: both updates change only connection_status,
disconnection_status, external_id and the three operation_error columns —
onboarding_status, vehicle_token_id, synthetic_token_id, wallet_index and
device_definition_id are untouched — and both clear the three
operation_error columns whenever the error argument is nil. -/
theorem claim_C10_update_frame (stored : Vin) (status externalID : String)
    (error : Option OperationError) :
    ((UpdateEnrollmentStatus stored status externalID error).onboardingStatus =
        stored.onboardingStatus ∧
      (UpdateEnrollmentStatus stored status externalID error).vehicleTokenID =
        stored.vehicleTokenID ∧
      (UpdateEnrollmentStatus stored status externalID error).syntheticTokenID =
        stored.syntheticTokenID ∧
      (UpdateEnrollmentStatus stored status externalID error).walletIndex =
        stored.walletIndex ∧
      (UpdateEnrollmentStatus stored status externalID error).deviceDefinitionID =
        stored.deviceDefinitionID) ∧
    ((UpdateUnenrollmentStatus stored status error).onboardingStatus =
        stored.onboardingStatus ∧
      (UpdateUnenrollmentStatus stored status error).vehicleTokenID =
        stored.vehicleTokenID ∧
      (UpdateUnenrollmentStatus stored status error).syntheticTokenID =
        stored.syntheticTokenID ∧
      (UpdateUnenrollmentStatus stored status error).walletIndex =
        stored.walletIndex ∧
      (UpdateUnenrollmentStatus stored status error).deviceDefinitionID =
        stored.deviceDefinitionID) ∧
    ((UpdateEnrollmentStatus stored status externalID none).operationErrorType =
        NullString.nullVal ∧
      (UpdateEnrollmentStatus stored status externalID none).operationErrorCode =
        NullString.nullVal ∧
      (UpdateEnrollmentStatus stored status externalID
          none).operationErrorDescription = NullString.nullVal ∧
      (UpdateUnenrollmentStatus stored status none).operationErrorType =
        NullString.nullVal ∧
      (UpdateUnenrollmentStatus stored status none).operationErrorCode =
        NullString.nullVal ∧
      (UpdateUnenrollmentStatus stored status none).operationErrorDescription =
        NullString.nullVal) := by
  refine ⟨⟨rfl, rfl, rfl, rfl, rfl⟩, ⟨rfl, rfl, rfl, rfl, rfl⟩,
    rfl, rfl, rfl, rfl, rfl, rfl⟩

/-! ## Vehicle registration (part_002, `RegisterVehicle`)

The store is a list of VIN rows.  `GetVehicleByExternalID`
(internal/service/vehicle.go lines 176-206) filters on the `external_id`
column — not the `vin` column — while the final
`InsertOrUpdateVin` upsert conflicts on the `vin` column.  When no row
matches, that helper returns a fresh `errors.New("vehicle not found")`
(vehicle.go line 194), not the package sentinel `ErrVehicleNotFound`
(vehicle.go line 22), and `errors.Is` compares such errors by identity;
`GoError` keeps that distinction.  The embedding starts after JSON parsing
and the 17-char check, with the identity-service response passed in. -/

/-- A Go error value as far as `errors.Is` can see it: a package-level
sentinel variable, or a fresh `errors.New` allocation at a call site. -/
inductive GoError where
  | sentinel (name : String)
  | fresh (message : String)
deriving DecidableEq, Repr

/-- Embeds `errors.Is` for plain `errors.New` errors (no `Unwrap`/`Is`
hooks): comparison is by identity, so a fresh allocation never matches a
package-level sentinel, even with the same message. -/
def errorsIs : GoError → GoError → Bool
  | .sentinel a, .sentinel b => a == b
  | _, _ => false

/-- The package-level sentinel `ErrVehicleNotFound` (vehicle.go line 22). -/
def ErrVehicleNotFound : GoError := .sentinel "vehicle not found"

/-- The identity-service vehicle for a token ID (the fields
`RegisterVehicle` reads). -/
structure IdentityVehicle where
  tokenID : Int
  owner : String
  syntheticDeviceTokenID : Int
  definitionID : String
deriving DecidableEq, Repr

/-- HTTP outcome of `RegisterVehicle`. -/
inductive RegisterOutcome where
  | notFound
  | unauthorized
  | conflict
  | serverError
  | registered
deriving DecidableEq, Repr

/-- Embeds `GetVehicleByExternalID` from vehicle.go: the first row whose
`external_id` equals the argument (SQL NULL never matches); with no match
it returns the fresh error of vehicle.go line 194, never the sentinel. -/
def GetVehicleByExternalID (store : List Vin) (externalID : String) :
    Except GoError Vin :=
  match store.find? (fun r => r.externalID == NullString.fromString externalID) with
  | some v => .ok v
  | none => .error (.fresh "vehicle not found")

/-- Embeds `InsertOrUpdateVin` from vehicle.go: upsert conflicting on the `vin`
column, updating every column on conflict. -/
def upsertVin (v : Vin) (store : List Vin) : List Vin :=
  if store.any (fun r => r.vin == v.vin) then
    store.map (fun r => if r.vin == v.vin then v else r)
  else
    store ++ [v]

/-- The two conditional copies from the identity vehicle at the end of
`RegisterVehicle`: synthetic_token_id and device_definition_id. -/
def enrichFromIdentity (idv : IdentityVehicle) (record : Vin) : Vin :=
  let record :=
    if idv.syntheticDeviceTokenID != 0 then
      { record with
        syntheticTokenID := NullInt64.fromInt idv.syntheticDeviceTokenID }
    else record
  if idv.definitionID != "" then
    { record with deviceDefinitionID := NullString.fromString idv.definitionID }
  else record

/-- The fresh row `RegisterVehicle` builds before the lookup. -/
def freshRegisterRecord (vin : String) (tokenID : Int) : Vin :=
  { vin := vin,
    onboardingStatus := OnboardingStatusSubmitUnknown,
    vehicleTokenID := NullInt64.fromInt tokenID }

/-- Embeds `RegisterVehicle` from part_002 (lines 200-288), after parsing:
check the identity vehicle exists and is owned by the caller, look up an
existing row by external_id; on a lookup error, 500 unless the error
matches the `ErrVehicleNotFound` sentinel under `errors.Is` (lines
247-255) — the branch that tolerates not-found and falls through to the
fresh-row upsert, unreachable here because the helper returns a fresh
error; on a found row, 409 when it has a different non-null
vehicle_token_id, otherwise upsert the found row wholesale, enriched from
the identity vehicle. -/
def RegisterVehicle (store : List Vin) (walletAddress : String)
    (idv : IdentityVehicle) (vin : String) (tokenID : Int) :
    RegisterOutcome × List Vin :=
  if idv.tokenID == 0 then (.notFound, store)
  else if idv.owner != walletAddress then (.unauthorized, store)
  else
    match GetVehicleByExternalID store vin with
    | .error e =>
      if errorsIs e ErrVehicleNotFound then
        (.registered,
          upsertVin (enrichFromIdentity idv (freshRegisterRecord vin tokenID))
            store)
      else
        (.serverError, store)
    | .ok existing =>
      if !existing.vehicleTokenID.isZero &&
          existing.vehicleTokenID.int64 != tokenID then
        (.conflict, store)
      else
        (.registered, upsertVin (enrichFromIdentity idv existing) store)

/-- The only error `GetVehicleByExternalID` produces is the fresh
not-found allocation. -/
theorem getVehicleByExternalID_error (store : List Vin) (externalID : String)
    (e : GoError) (h : GetVehicleByExternalID store externalID = .error e) :
    e = .fresh "vehicle not found" := by
  unfold GetVehicleByExternalID at h
  cases hf : store.find? (fun r => r.externalID == NullString.fromString externalID) with
  | some v =>
    rw [hf] at h
    exact absurd h (by simp)
  | none =>
    rw [hf] at h
    simpa using h.symm

/-- The upserted row is in the resulting store. -/
theorem mem_upsertVin (v : Vin) (store : List Vin) : v ∈ upsertVin v store := by
  unfold upsertVin
  by_cases h : store.any (fun r => r.vin == v.vin) = true
  · simp only [h, if_true]
    rcases List.any_eq_true.mp h with ⟨a, ha, hav⟩
    refine List.mem_map.mpr ⟨a, ha, ?_⟩
    simp only [hav, if_true]
  · simp only [h, if_false]
    exact List.mem_append_right _ (List.mem_singleton.mpr rfl)

/-- Identity enrichment never touches vin or vehicle_token_id. -/
theorem enrichFromIdentity_frame (idv : IdentityVehicle) (record : Vin) :
    (enrichFromIdentity idv record).vehicleTokenID = record.vehicleTokenID ∧
    (enrichFromIdentity idv record).vin = record.vin := by
  unfold enrichFromIdentity
  constructor <;> (dsimp only; split <;> split <;> rfl)

/-- The identity-service answer for token 5, owned by the caller. -/
def c5Identity : IdentityVehicle :=
  { tokenID := 5, owner := "0xCaller", syntheticDeviceTokenID := 0,
    definitionID := "" }

/-- Claim C5 counterexample: the caller owns token 5 and no stored record
links VIN "1FTFW1ET5DFA12345" to any token (the store is empty), so the
claim demands a 200 response upserting a record linking the VIN to token
5; instead `GetVehicleByExternalID` returns the fresh "vehicle not found"
error of vehicle.go line 194, which never matches the `ErrVehicleNotFound`
sentinel tested with `errors.Is` at part_002 line 249, and the handler
responds 500 having stored nothing. -/
theorem claim_C5_register_counterexample :
    RegisterVehicle [] "0xCaller" c5Identity "1FTFW1ET5DFA12345" 5 =
      (.serverError, []) := by
  decide

/-- Claim C5 (amended): for an ownership-confirmed register request the
existing-registration check looks the VIN up in the external_id column,
not the vin column.  If a row whose external_id equals the VIN carries a
non-null vehicle_token_id different from the requested token, the handler
responds 409 and leaves the store unchanged; if it carries a null or
matching vehicle_token_id, the handler re-upserts that row (keyed on the
vin column) with its vehicle_token_id kept as-is — only
synthetic_token_id / device_definition_id are refreshed from the identity
service — and responds 200; when the lookup finds nothing it responds 500
and upserts nothing, because the fresh "vehicle not found" error the store
helper returns never matches the `ErrVehicleNotFound` sentinel that the
handler tolerates under `errors.Is`, leaving the fresh-row-upsert branch
unreachable. -/
theorem claim_C5_register (store : List Vin) (walletAddress : String)
    (idv : IdentityVehicle) (vin : String) (tokenID : Int)
    (htid : idv.tokenID ≠ 0) (hown : idv.owner = walletAddress) :
    (∀ e, GetVehicleByExternalID store vin = .error e →
      RegisterVehicle store walletAddress idv vin tokenID =
        (.serverError, store)) ∧
    (∀ existing, GetVehicleByExternalID store vin = .ok existing →
      existing.vehicleTokenID.valid = true →
      existing.vehicleTokenID.int64 ≠ tokenID →
      RegisterVehicle store walletAddress idv vin tokenID =
        (.conflict, store)) ∧
    (∀ existing, GetVehicleByExternalID store vin = .ok existing →
      (existing.vehicleTokenID.valid = false ∨
        existing.vehicleTokenID.int64 = tokenID) →
      (RegisterVehicle store walletAddress idv vin tokenID).1 = .registered ∧
      ∃ r ∈ (RegisterVehicle store walletAddress idv vin tokenID).2,
        r.vin = existing.vin ∧ r.vehicleTokenID = existing.vehicleTokenID) := by
  have hguards :
      ∀ rest : RegisterOutcome × List Vin,
        (if idv.tokenID == 0 then ((.notFound, store) : RegisterOutcome × List Vin)
         else if idv.owner != walletAddress then (.unauthorized, store)
         else rest) = rest := by
    intro rest
    have h1 : (idv.tokenID == 0) = false := by simpa using htid
    have h2 : (idv.owner != walletAddress) = false := by simp [hown]
    simp [h1, h2]
  refine ⟨?_, ?_, ?_⟩
  · intro e hfind
    have he := getVehicleByExternalID_error store vin e hfind
    subst he
    unfold RegisterVehicle
    rw [hguards, hfind]
    rfl
  · intro existing hfind hvalid hneq
    unfold RegisterVehicle
    rw [hguards, hfind]
    have hc : (!existing.vehicleTokenID.isZero &&
        existing.vehicleTokenID.int64 != tokenID) = true := by
      simp [NullInt64.isZero, hvalid, hneq]
    simp [hc]
  · intro existing hfind hcase
    unfold RegisterVehicle
    rw [hguards, hfind]
    have hc : (!existing.vehicleTokenID.isZero &&
        existing.vehicleTokenID.int64 != tokenID) = false := by
      rcases hcase with h | h
      · simp [NullInt64.isZero, h]
      · simp [h]
    have hcond : ¬((!existing.vehicleTokenID.isZero &&
        existing.vehicleTokenID.int64 != tokenID) = true) := by
      simp [hc]
    dsimp only
    rw [if_neg hcond]
    exact ⟨rfl, enrichFromIdentity idv existing, mem_upsertVin _ _,
      (enrichFromIdentity_frame idv existing).2,
      (enrichFromIdentity_frame idv existing).1⟩

/-- A row whose external_id equals the VIN and that carries the different
non-null vehicle token 999. -/
def c5LinkedOther : Vin :=
  { vin := "1FTFW1ET5DFA12345",
    onboardingStatus := OnboardingStatusSubmitSuccess,
    vehicleTokenID := NullInt64.fromInt 999,
    externalID := NullString.fromString "1FTFW1ET5DFA12345" }

/-- Witness for the amended claim C5: a register request against a row
whose external_id matches the VIN but whose vehicle_token_id is 999 ≠ 5
gets 409 with the store unchanged. -/
theorem claim_C5_register_witness :
    RegisterVehicle [c5LinkedOther] "0xCaller" c5Identity
      "1FTFW1ET5DFA12345" 5 = (.conflict, [c5LinkedOther]) := by
  exact (claim_C5_register [c5LinkedOther] "0xCaller" c5Identity
    "1FTFW1ET5DFA12345" 5 (by decide) rfl).2.1 c5LinkedOther rfl rfl (by decide)

end VolterasOracle
